import Mathlib

/-!
Shallow embedding of `src/connect_impala.py`: a helper module that builds a
Kerberos/SSL ODBC connection string for Hive or Impala, opens the
connection, and runs a SQL query whose results are packaged into a
data frame.  Side effects (messages printed, calls to the driver,
cursor/connection closes) are made explicit in trace structures, and the
external driver and cursor are modelled as oracles supplied by the caller.
-/

namespace ConnectImpala

/-- Result of a Python call that may raise: either a normal value or an
exception carrying its message text. -/
inductive PyResult (α : Type) where
  | ok (a : α)
  | exn (e : String)
deriving DecidableEq, Repr

/-- Python `str.lower()`, modelled as a character-wise lowercasing of the
string (exact for the ASCII service names this module deals with). -/
def pyLower (s : String) : String :=
  ⟨s.data.map Char.toLower⟩

/-- Python `str.upper()`, modelled as a character-wise uppercasing of the
string (exact for the ASCII service names this module deals with). -/
def pyUpper (s : String) : String :=
  ⟨s.data.map Char.toUpper⟩

/-- Driver selection from line 19 of the source:
`driver = 'Cloudera ODBC Driver for Apache Hive' if service.lower() == 'hive'
else 'Cloudera ODBC Driver for Apache Impala'`. -/
def driverFor (service : String) : String :=
  if pyLower service = "hive" then "Cloudera ODBC Driver for Apache Hive"
  else "Cloudera ODBC Driver for Apache Impala"

/-- The `ssl_option` local of line 20: `'1' if ssl else '0'`. -/
def ssl_option (ssl : Bool) : String :=
  if ssl then "1" else "0"

/-- The `connection_string` local of lines 22 to 33, one appended piece per
f-string fragment, in source order. -/
def connection_string (service host port kerberos_service_name : String)
    (ssl : Bool) : String :=
  ("DRIVER=\x7b" ++ driverFor service ++ "\x7d;") ++
  ("HOST=" ++ host ++ ";") ++
  ("PORT=" ++ port ++ ";") ++
  "AuthMech=1;" ++
  ("KrbHostFQDN=" ++ host ++ ";") ++
  ("KrbServiceName=" ++ kerberos_service_name ++ ";") ++
  "KrbAuthType=2;" ++
  ("SSL=" ++ ssl_option ssl ++ ";") ++
  "UID=;" ++
  "PWD=;"

/-- Connection string format as stated by the spec, written out as one
flat template:
`DRIVER={<driver name>};HOST=<host>;PORT=<port>;AuthMech=1;KrbHostFQDN=<host>;KrbServiceName=<name>;KrbAuthType=2;SSL=<0|1>;UID=;PWD=;`. -/
def connection_string_spec (service host port kerberos_service_name : String)
    (ssl : Bool) : String :=
  "DRIVER=\x7b" ++ driverFor service ++ "\x7d;HOST=" ++ host ++ ";PORT=" ++
  port ++ ";AuthMech=1;KrbHostFQDN=" ++ host ++ ";KrbServiceName=" ++
  kerberos_service_name ++ ";KrbAuthType=2;SSL=" ++
  (if ssl then "1" else "0") ++ ";UID=;PWD=;"

/-- Observable outcome of `create_odbc_connection`: the returned value
(`none` models Python `None`), the messages printed, and the calls made to
the external `pyodbc.connect`, each recorded as
(connection string, autocommit flag). -/
structure CreateTrace (α : Type) where
  result : Option α
  printed : List String
  connectCalls : List (String × Bool)
deriving Repr

/-- Embedding of `create_odbc_connection` (lines 5 to 41).  The external
`pyodbc.connect` is an oracle taking the connection string and the
autocommit flag; the try/except of lines 35 to 41 catches any exception it
raises, so the embedding is total and returns a trace. -/
def create_odbc_connection {α : Type} (connect : String → Bool → PyResult α)
    (service host port kerberos_service_name : String) (ssl : Bool) :
    CreateTrace α :=
  let cs := connection_string service host port kerberos_service_name ssl
  match connect cs true with
  | .ok connection =>
      ⟨some connection, ["Successfully connected to " ++ pyUpper service],
        [(cs, true)]⟩
  | .exn e =>
      ⟨none, ["Failed to connect to " ++ pyUpper service ++ ": " ++ e],
        [(cs, true)]⟩

/-- A value appearing in a result row (enough of the Python value universe
for the rows the claims mention). -/
inductive PyVal where
  | int (n : Int)
  | str (s : String)
deriving DecidableEq, Repr

/-- A pyodbc column descriptor: `desc[0]` is the column name, the further
elements of the descriptor tuple are opaque metadata this module never
reads. -/
structure ColumnDesc where
  name : String
  rest : List String
deriving DecidableEq, Repr

/-- Oracle model of a pyodbc cursor: what `execute` does for a given SQL
text, the column descriptors of the result, and what `fetchall` returns. -/
structure Cursor (ρ : Type) where
  execRes : String → PyResult Unit
  description : List ColumnDesc
  fetchRes : PyResult (List ρ)

/-- Oracle model of a pyodbc connection: what the `cursor()` call returns
(or raises). -/
structure Connection (ρ : Type) where
  cursorRes : PyResult (Cursor ρ)

/-- Model of `pd.DataFrame.from_records(data, columns=columns)`: ordered
column names together with the ordered records. -/
structure DataFrame (ρ : Type) where
  columns : List String
  records : List ρ
deriving DecidableEq, Repr

/-- Observable outcome of `run_sql_query_to_df`: the outer `PyResult` is
`exn` exactly when an exception escapes to the caller, `ok none` models the
implicit Python `None` return of the except branch, and `ok (some df)` a
returned frame.  The trace also records the messages printed and how many
times `cursor.close()` and `connection.close()` were invoked. -/
structure RunTrace (ρ : Type) where
  result : PyResult (Option (DataFrame ρ))
  printed : List String
  cursorCloseCount : Nat
  connCloseCount : Nat

/-- Embedding of `run_sql_query_to_df` (lines 44 to 68).  The cursor is
acquired on line 55 before the try block, so an exception there escapes;
inside the try, `execute` and `fetchall` may raise, the except prints an
error message and falls through to the implicit `None` return, and the
finally block closes the cursor on every exit of the try.  The connection
itself is never closed. -/
def run_sql_query_to_df {ρ : Type} (connection : Connection ρ)
    (sql_query : String) : RunTrace ρ :=
  match connection.cursorRes with
  | .exn e => ⟨.exn e, [], 0, 0⟩
  | .ok cursor =>
    match cursor.execRes sql_query with
    | .exn e => ⟨.ok none, ["Error executing query: " ++ e], 1, 0⟩
    | .ok _ =>
      let columns := cursor.description.map ColumnDesc.name
      match cursor.fetchRes with
      | .exn e => ⟨.ok none, ["Error executing query: " ++ e], 1, 0⟩
      | .ok data => ⟨.ok (some ⟨columns, data⟩), [], 1, 0⟩

/-- Claim C1: for every host, port, Kerberos service name and ssl flag,
the connection string built by `create_odbc_connection` is exactly the
semicolon-delimited sequence
DRIVER=\x7b(driver)\x7d;HOST=(host);PORT=(port);AuthMech=1;KrbHostFQDN=(host);KrbServiceName=(name);KrbAuthType=2;SSL=(0|1);UID=;PWD=;
in that order, with the selected Cloudera driver, HOST and KrbHostFQDN
both the host argument, and UID and PWD always empty. -/
theorem c1_connection_string_format
    (service host port kerberos_service_name : String) (ssl : Bool) :
    connection_string service host port kerberos_service_name ssl
      = connection_string_spec service host port kerberos_service_name ssl ∧
    ∃ p, connection_string service host port kerberos_service_name ssl
      = p ++ "UID=;PWD=;" := by
  refine ⟨?_, ?_⟩
  · apply String.ext
    simp [connection_string, connection_string_spec, ssl_option,
      String.data_append]
  · refine ⟨"DRIVER=\x7b" ++ driverFor service ++ "\x7d;HOST=" ++ host ++
      ";PORT=" ++ port ++ ";AuthMech=1;KrbHostFQDN=" ++ host ++
      ";KrbServiceName=" ++ kerberos_service_name ++ ";KrbAuthType=2;SSL=" ++
      ssl_option ssl ++ ";", ?_⟩
    apply String.ext
    simp [connection_string, String.data_append]

/-- Claim C2: every service string whose lowercasing is hive selects the
Hive driver name, and every service string whose lowercasing is impala
selects the Impala driver name, so driver selection is case-insensitive in
the service argument. -/
theorem c2_driver_selection_case_insensitive :
    (∀ service : String, pyLower service = "hive" →
      driverFor service = "Cloudera ODBC Driver for Apache Hive") ∧
    (∀ service : String, pyLower service = "impala" →
      driverFor service = "Cloudera ODBC Driver for Apache Impala") := by
  refine ⟨fun service h => ?_, fun service h => ?_⟩
  · simp [driverFor, h]
  · simp [driverFor, h]

/-- Witness for C2 at the concrete casings HIVE and Impala. -/
theorem c2_driver_selection_case_insensitive_witness :
    driverFor "HIVE" = "Cloudera ODBC Driver for Apache Hive" ∧
    driverFor "Impala" = "Cloudera ODBC Driver for Apache Impala" :=
  ⟨c2_driver_selection_case_insensitive.1 "HIVE" (by decide),
   c2_driver_selection_case_insensitive.2 "Impala" (by decide)⟩

/-- Claim C3: whenever the underlying driver connect call raises,
`create_odbc_connection` returns `none`, prints an error message that ends
with the text of the underlying error, and no exception escapes (the
embedding is total: every outcome of the oracle yields a trace). -/
theorem c3_connect_failure_swallowed {α : Type}
    (connect : String → Bool → PyResult α)
    (service host port kerberos_service_name : String) (ssl : Bool)
    (e : String)
    (h : connect (connection_string service host port kerberos_service_name
      ssl) true = .exn e) :
    (create_odbc_connection connect service host port kerberos_service_name
      ssl).result = none ∧
    (create_odbc_connection connect service host port kerberos_service_name
      ssl).printed
      = ["Failed to connect to " ++ pyUpper service ++ ": " ++ e] ∧
    ∃ p, "Failed to connect to " ++ pyUpper service ++ ": " ++ e
      = p ++ e := by
  refine ⟨?_, ?_, ⟨"Failed to connect to " ++ pyUpper service ++ ": ", ?_⟩⟩
  · simp [create_odbc_connection, h]
  · simp [create_odbc_connection, h]
  · apply String.ext
    simp [String.data_append]

/-- Witness for C3 with a driver stub that always raises boom. -/
theorem c3_connect_failure_swallowed_witness :
    (create_odbc_connection (fun _ _ => (PyResult.exn "boom" : PyResult Nat))
      "impala" "h" "21050" "impala" true).result = none ∧
    (create_odbc_connection (fun _ _ => (PyResult.exn "boom" : PyResult Nat))
      "impala" "h" "21050" "impala" true).printed
      = ["Failed to connect to " ++ pyUpper "impala" ++ ": " ++ "boom"] ∧
    ∃ p, "Failed to connect to " ++ pyUpper "impala" ++ ": " ++ "boom"
      = p ++ "boom" :=
  c3_connect_failure_swallowed (fun _ _ => (PyResult.exn "boom" : PyResult Nat))
    "impala" "h" "21050" "impala" true "boom" rfl

/-- Claim C4: once the cursor is acquired, `run_sql_query_to_df` closes it
exactly once on every exit path, and if the execute call raises the
function returns the implicit None (absent result). -/
theorem c4_cursor_closed_on_every_exit {ρ : Type} (connection : Connection ρ)
    (sql_query : String) (cursor : Cursor ρ)
    (h : connection.cursorRes = .ok cursor) :
    (run_sql_query_to_df connection sql_query).cursorCloseCount = 1 ∧
    (∀ e, cursor.execRes sql_query = .exn e →
      (run_sql_query_to_df connection sql_query).result = .ok none) := by
  refine ⟨?_, ?_⟩
  · rcases hx : cursor.execRes sql_query with u | e
    · rcases hf : cursor.fetchRes with data | e <;>
        simp [run_sql_query_to_df, h, hx, hf]
    · simp [run_sql_query_to_df, h, hx]
  · intro e he
    simp [run_sql_query_to_df, h, he]

/-- Witness for C4 with a cursor whose execute raises bad. -/
theorem c4_cursor_closed_on_every_exit_witness :
    (run_sql_query_to_df (Connection.mk (PyResult.ok
      (Cursor.mk (fun _ => PyResult.exn "bad") []
        (PyResult.ok ([] : List Nat))))) "SELECT 1").cursorCloseCount = 1 ∧
    (run_sql_query_to_df (Connection.mk (PyResult.ok
      (Cursor.mk (fun _ => PyResult.exn "bad") []
        (PyResult.ok ([] : List Nat))))) "SELECT 1").result
      = PyResult.ok none :=
  ⟨(c4_cursor_closed_on_every_exit
      (Connection.mk (PyResult.ok (Cursor.mk (fun _ => PyResult.exn "bad") []
        (PyResult.ok ([] : List Nat))))) "SELECT 1"
      (Cursor.mk (fun _ => PyResult.exn "bad") []
        (PyResult.ok ([] : List Nat))) rfl).1,
   (c4_cursor_closed_on_every_exit
      (Connection.mk (PyResult.ok (Cursor.mk (fun _ => PyResult.exn "bad") []
        (PyResult.ok ([] : List Nat))))) "SELECT 1"
      (Cursor.mk (fun _ => PyResult.exn "bad") []
        (PyResult.ok ([] : List Nat))) rfl).2 "bad" rfl⟩

/-- Claim C5: for a cursor that yields rows (1,a),(2,b) and column
descriptors with first elements id and name, `run_sql_query_to_df` returns
a frame whose columns are exactly [id, name] in order and whose records
are exactly the two input rows in order. -/
theorem c5_tabular_result :
    (run_sql_query_to_df (Connection.mk (PyResult.ok
      (Cursor.mk (fun _ => PyResult.ok ())
        [ColumnDesc.mk "id" [], ColumnDesc.mk "name" []]
        (PyResult.ok [[PyVal.int 1, PyVal.str "a"],
          [PyVal.int 2, PyVal.str "b"]]))))
      "SELECT id, name FROM t").result
    = PyResult.ok (some (DataFrame.mk ["id", "name"]
        [[PyVal.int 1, PyVal.str "a"], [PyVal.int 2, PyVal.str "b"]])) :=
  rfl

/-- Claim C6: whenever the driver connect call succeeds,
`create_odbc_connection` passes autocommit true to the single connect
call, returns the handle it received, and prints a success message that
contains the uppercased service name. -/
theorem c6_connect_success {α : Type} (connect : String → Bool → PyResult α)
    (service host port kerberos_service_name : String) (ssl : Bool) (c : α)
    (h : connect (connection_string service host port kerberos_service_name
      ssl) true = .ok c) :
    (create_odbc_connection connect service host port kerberos_service_name
      ssl).result = some c ∧
    (create_odbc_connection connect service host port kerberos_service_name
      ssl).connectCalls
      = [(connection_string service host port kerberos_service_name ssl,
          true)] ∧
    (create_odbc_connection connect service host port kerberos_service_name
      ssl).printed = ["Successfully connected to " ++ pyUpper service] ∧
    ∃ p q, "Successfully connected to " ++ pyUpper service
      = p ++ pyUpper service ++ q := by
  refine ⟨?_, ?_, ?_, ⟨"Successfully connected to ", "", ?_⟩⟩
  · simp [create_odbc_connection, h]
  · simp [create_odbc_connection, h]
  · simp [create_odbc_connection, h]
  · apply String.ext
    simp [String.data_append]

/-- Witness for C6 with a driver stub that returns the handle 42. -/
theorem c6_connect_success_witness :
    (create_odbc_connection (fun _ _ => (PyResult.ok 42 : PyResult Nat))
      "hive" "h" "10000" "hive" false).result = some 42 ∧
    (create_odbc_connection (fun _ _ => (PyResult.ok 42 : PyResult Nat))
      "hive" "h" "10000" "hive" false).connectCalls
      = [(connection_string "hive" "h" "10000" "hive" false, true)] ∧
    (create_odbc_connection (fun _ _ => (PyResult.ok 42 : PyResult Nat))
      "hive" "h" "10000" "hive" false).printed
      = ["Successfully connected to " ++ pyUpper "hive"] ∧
    ∃ p q, "Successfully connected to " ++ pyUpper "hive"
      = p ++ pyUpper "hive" ++ q :=
  c6_connect_success (fun _ _ => (PyResult.ok 42 : PyResult Nat))
    "hive" "h" "10000" "hive" false 42 rfl

/-- Claim C7: the built connection string decomposes as a prefix and a
suffix that do not depend on the ssl flag, around SSL=1 when ssl is true
and SSL=0 when ssl is false: the SSL field is present and is the only part
of the string that depends on the ssl argument. -/
theorem c7_ssl_flag_only_dependence
    (service host port kerberos_service_name : String) :
    ∃ pre suf, ∀ ssl : Bool,
      connection_string service host port kerberos_service_name ssl
        = pre ++ (if ssl then "SSL=1" else "SSL=0") ++ suf := by
  refine ⟨"DRIVER=\x7b" ++ driverFor service ++ "\x7d;HOST=" ++ host ++
    ";PORT=" ++ port ++ ";AuthMech=1;KrbHostFQDN=" ++ host ++
    ";KrbServiceName=" ++ kerberos_service_name ++ ";KrbAuthType=2;",
    ";UID=;PWD=;", ?_⟩
  intro ssl
  apply String.ext
  cases ssl <;> simp [connection_string, ssl_option, String.data_append]

/-- Claim C8: `run_sql_query_to_df` never closes the connection itself on
any exit path; it only ever closes the per-query cursor. -/
theorem c8_connection_never_closed {ρ : Type} (connection : Connection ρ)
    (sql_query : String) :
    (run_sql_query_to_df connection sql_query).connCloseCount = 0 := by
  rcases hc : connection.cursorRes with cursor | e
  · rcases hx : cursor.execRes sql_query with u | e
    · rcases hf : cursor.fetchRes with data | e <;>
        simp [run_sql_query_to_df, hc, hx, hf]
    · simp [run_sql_query_to_df, hc, hx]
  · simp [run_sql_query_to_df, hc]

/-- Claim C9: every service string whose lowercasing is not hive, for
example foo or the empty string, selects the Impala driver name, and
`create_odbc_connection` still proceeds to make its single connect call:
out-of-enum service values are not rejected. -/
theorem c9_non_hive_selects_impala {α : Type}
    (connect : String → Bool → PyResult α)
    (service host port kerberos_service_name : String) (ssl : Bool)
    (h : pyLower service ≠ "hive") :
    driverFor service = "Cloudera ODBC Driver for Apache Impala" ∧
    (create_odbc_connection connect service host port kerberos_service_name
      ssl).connectCalls
      = [(connection_string service host port kerberos_service_name ssl,
          true)] := by
  refine ⟨by simp [driverFor, h], ?_⟩
  rcases hc : connect (connection_string service host port
      kerberos_service_name ssl) true with a | e <;>
    simp [create_odbc_connection, hc]

/-- Witness for C9 at the out-of-enum service string foo. -/
theorem c9_non_hive_selects_impala_witness :
    driverFor "foo" = "Cloudera ODBC Driver for Apache Impala" ∧
    (create_odbc_connection (fun _ _ => (PyResult.exn "x" : PyResult Nat))
      "foo" "h" "1" "s" true).connectCalls
      = [(connection_string "foo" "h" "1" "s" true, true)] :=
  c9_non_hive_selects_impala (fun _ _ => (PyResult.exn "x" : PyResult Nat))
    "foo" "h" "1" "s" true (by decide)

/-- Claim C10: when the cursor acquisition itself raises, the exception
propagates out of `run_sql_query_to_df` uncaught, nothing is printed, and
no cursor close is attempted. -/
theorem c10_cursor_acquire_failure_propagates {ρ : Type}
    (connection : Connection ρ) (sql_query e : String)
    (h : connection.cursorRes = .exn e) :
    (run_sql_query_to_df connection sql_query).result = .exn e ∧
    (run_sql_query_to_df connection sql_query).printed = [] ∧
    (run_sql_query_to_df connection sql_query).cursorCloseCount = 0 := by
  refine ⟨?_, ?_, ?_⟩ <;> simp [run_sql_query_to_df, h]

/-- Witness for C10 with a connection whose cursor call raises down. -/
theorem c10_cursor_acquire_failure_propagates_witness :
    (run_sql_query_to_df (Connection.mk (PyResult.exn "down") :
      Connection Nat) "SELECT 1").result = PyResult.exn "down" ∧
    (run_sql_query_to_df (Connection.mk (PyResult.exn "down") :
      Connection Nat) "SELECT 1").printed = [] ∧
    (run_sql_query_to_df (Connection.mk (PyResult.exn "down") :
      Connection Nat) "SELECT 1").cursorCloseCount = 0 :=
  c10_cursor_acquire_failure_propagates
    (Connection.mk (PyResult.exn "down") : Connection Nat)
    "SELECT 1" "down" rfl

end ConnectImpala
